import Mathlib

/-!
# Verification of the GROOPS Earth-rotation / tides core

Shallow embedding of
* `src/source/classes/earthRotation/earthRotationIers2010.cpp`
* `src/source/classes/tides/tides.cpp`
over exact rational arithmetic (C++ `Double` is modelled as `ℚ`; external
math routines — libm `sqrt`, the ERFA/IERS model functions, the polynomial
interpolator of `base/polynomial.h` and the Legendre-function generator
`SphericalHarmonics::CnmSnm` of `base/sphericalHarmonics.cpp`, none of which
are part of the examined sources — are abstract function parameters).
A `Time` is its modified Julian date, a rational number of days.
-/

namespace Groops

/-- Type `Vector3d` of `base/vector3d.h` (external leaf utility): a 3-vector of
reals, default-constructed to zero. -/
structure Vector3d where
  x : ℚ
  y : ℚ
  z : ℚ
  deriving DecidableEq, Repr

instance : Zero Vector3d := ⟨⟨0, 0, 0⟩⟩

instance : Add Vector3d := ⟨fun a b => ⟨a.x + b.x, a.y + b.y, a.z + b.z⟩⟩

instance : Sub Vector3d := ⟨fun a b => ⟨a.x - b.x, a.y - b.y, a.z - b.z⟩⟩

instance : SMul ℚ Vector3d := ⟨fun c v => ⟨c * v.x, c * v.y, c * v.z⟩⟩

/-- Function `inner` of `base/vector3d.h`: the Euclidean dot product. -/
def inner3d (a b : Vector3d) : ℚ := a.x * b.x + a.y * b.y + a.z * b.z

/-- component access by row offset 0/1/2 (the `A(3*k+0/1/2, ·)` writes). -/
def Vector3d.comp (v : Vector3d) : Nat → ℚ
  | 0 => v.x
  | 1 => v.y
  | _ => v.z

theorem vec3d_add_def (a b : Vector3d) :
    a + b = ⟨a.x + b.x, a.y + b.y, a.z + b.z⟩ := rfl

theorem vec3d_zero_def : (0 : Vector3d) = ⟨0, 0, 0⟩ := rfl

instance : AddCommMonoid Vector3d where
  add_assoc a b c := by
    cases a; cases b; cases c
    simp only [vec3d_add_def, Vector3d.mk.injEq]
    refine ⟨by ring, by ring, by ring⟩
  zero_add a := by cases a; simp [vec3d_add_def, vec3d_zero_def]
  add_zero a := by cases a; simp [vec3d_add_def, vec3d_zero_def]
  add_comm a b := by
    cases a; cases b
    simp only [vec3d_add_def, Vector3d.mk.injEq]
    refine ⟨by ring, by ring, by ring⟩
  nsmul := nsmulRec

/-- Type `Tensor3d` of `base/tensor3d.h` (external leaf utility): a symmetric
3×3 tensor stored by its six independent components, default zero. -/
structure Tensor3d where
  xx : ℚ
  xy : ℚ
  xz : ℚ
  yy : ℚ
  yz : ℚ
  zz : ℚ
  deriving DecidableEq, Repr

instance : Zero Tensor3d := ⟨⟨0, 0, 0, 0, 0, 0⟩⟩

instance : Add Tensor3d :=
  ⟨fun a b => ⟨a.xx + b.xx, a.xy + b.xy, a.xz + b.xz, a.yy + b.yy, a.yz + b.yz, a.zz + b.zz⟩⟩

theorem tens3d_add_def (a b : Tensor3d) :
    a + b = ⟨a.xx + b.xx, a.xy + b.xy, a.xz + b.xz, a.yy + b.yy, a.yz + b.yz, a.zz + b.zz⟩ := rfl

theorem tens3d_zero_def : (0 : Tensor3d) = ⟨0, 0, 0, 0, 0, 0⟩ := rfl

instance : AddCommMonoid Tensor3d where
  add_assoc a b c := by
    cases a; cases b; cases c
    simp only [tens3d_add_def, Tensor3d.mk.injEq]
    refine ⟨by ring, by ring, by ring, by ring, by ring, by ring⟩
  zero_add a := by cases a; simp [tens3d_add_def, tens3d_zero_def]
  add_zero a := by cases a; simp [tens3d_add_def, tens3d_zero_def]
  add_comm a b := by
    cases a; cases b
    simp only [tens3d_add_def, Tensor3d.mk.injEq]
    refine ⟨by ring, by ring, by ring, by ring, by ring, by ring⟩
  nsmul := nsmulRec

/-- Type `SphericalHarmonics` of `base/sphericalHarmonics.h` (external): a
coefficient field tagged with GM, reference radius R and maximum degree;
`x` is the packed coefficient vector returned by `SphericalHarmonics::x()`
(length `(maxDegree+1)²`, one entry per (degree, order) coefficient). -/
structure SphericalHarmonics where
  GM : ℚ
  R : ℚ
  maxDegree : Nat
  x : Nat → ℚ

/-- The default-constructed `SphericalHarmonics()`: the empty/zero field
(all coefficients zero). -/
def SphericalHarmonics.emptyField : SphericalHarmonics :=
  { GM := 0, R := 0, maxDegree := 0, x := fun _ => 0 }

/-- Modelled from the spec (operator `+=` of `base/sphericalHarmonics.cpp`
is not among the examined sources): "supports additive combination
(coefficient-wise sum) across degree-compatible fields". -/
def SphericalHarmonics.add (f g : SphericalHarmonics) : SphericalHarmonics :=
  { GM := f.GM, R := f.R, maxDegree := max f.maxDegree g.maxDegree,
    x := fun c => f.x c + g.x c }

/-!
## The tide-component interface

`TidesBase` (classes/tides/tides.h) is a virtual interface; the aggregator
`Tides` holds a list of components and only forwards its own arguments to
each of them.  A component is therefore a record of functions over opaque
argument bundles `α` (time/point/rotation/providers for the scalar and
vector operations), `β` (the single-point deformation arguments), `γ` (the
batch deformation arguments) and `δ` (the sphericalHarmonics arguments). -/

structure TideComponent (α β γ δ : Type) where
  potential : α → ℚ
  radialGradient : α → ℚ
  gravity : α → Vector3d
  gravityGradient : α → Tensor3d
  deformOne : β → Vector3d
  deformMany : γ → List (List Vector3d) → List (List Vector3d)
  sphericalHarmonics : δ → SphericalHarmonics

namespace Tides

variable {α β γ δ : Type}

/-- Method `Tides::potential` (tides.cpp:90-104): `V = 0; for i: V += tides[i]->potential(...)`. -/
def potential (tides : List (TideComponent α β γ δ)) (a : α) : ℚ :=
  tides.foldl (fun V c => V + c.potential a) 0

/-- Method `Tides::radialGradient` (tides.cpp:108-122). -/
def radialGradient (tides : List (TideComponent α β γ δ)) (a : α) : ℚ :=
  tides.foldl (fun dVdr c => dVdr + c.radialGradient a) 0

/-- Method `Tides::acceleration` (tides.cpp:126-140): `Vector3d g; for i: g += tides[i]->gravity(...)`. -/
def acceleration (tides : List (TideComponent α β γ δ)) (a : α) : Vector3d :=
  tides.foldl (fun g c => g + c.gravity a) 0

/-- Method `Tides::gradient` (tides.cpp:144-158): `Tensor3d T; for i: T += tides[i]->gravityGradient(...)`. -/
def gradient (tides : List (TideComponent α β γ δ)) (a : α) : Tensor3d :=
  tides.foldl (fun T c => T + c.gravityGradient a) 0

/-- Method `Tides::deformation`, single point (tides.cpp:162-177). -/
def deformation (tides : List (TideComponent α β γ δ)) (b : β) : Vector3d :=
  tides.foldl (fun pos c => pos + c.deformOne b) 0

/-- Method `Tides::deformation`, batch (tides.cpp:181-194): each component in turn
adds its contribution into the caller-supplied array `disp`. -/
def deformationBatch (tides : List (TideComponent α β γ δ)) (g : γ)
    (disp : List (List Vector3d)) : List (List Vector3d) :=
  tides.foldl (fun d c => c.deformMany g d) disp

/-- Method `Tides::sphericalHarmonics` (tides.cpp:198-215): empty list returns the
default-constructed field, otherwise the components' fields are summed
starting from the first. -/
def sphericalHarmonics (tides : List (TideComponent α β γ δ)) (d : δ) :
    SphericalHarmonics :=
  match tides with
  | [] => SphericalHarmonics.emptyField
  | t :: ts => ts.foldl (fun h c => h.add (c.sphericalHarmonics d)) (t.sphericalHarmonics d)

end Tides

/-!
## Deformation matrix (`TidesBase::deformationMatrix`, tides.cpp:291-364)

The C++ code fills a dense `Matrix A(3*point.size(), (maxDegree+1)*(maxDegree+1))`
by loops: for every point `k` it writes, for each degree `n`, the order-0
displacement into column `n*n` (rows `3k..3k+2`), and for each order
`m = 1..maxDegree`, degree `n = m..maxDegree`, the cosine displacement into
column `n*n+2*m-1` and the sine displacement into column `n*n+2*m`.  Every
cell is written exactly once (theorem for C8 below), so the filled matrix is
expressed here pointwise: each cell `(row, col)` decodes its point index
`k = row/3`, component `row%3`, and its `(degree, order, cosine/sine)`
triple from `col`, and evaluates the very displacement formula the loop
would have stored there.  `sqrtQ` stands for libm `sqrt` and `cnmsnm` for
`SphericalHarmonics::CnmSnm` (both external to the examined sources). -/

structure GMatrix where
  rows : Nat
  cols : Nat
  entry : Nat → Nat → ℚ

/-- Computation `Vector Ax = A * x` restricted to one result row: the dot product of
row `j` with the packed coefficient vector. -/
def GMatrix.mulVec (A : GMatrix) (x : Nat → ℚ) (j : Nat) : ℚ :=
  ∑ c ∈ Finset.range A.cols, A.entry j c * x c

/-- column of the (degree `n`, order `m`) cosine (`sine = false`) or sine
(`sine = true`) coefficient: `n*n` for `m = 0`, `n*n+2*m-1` / `n*n+2*m`
for `m ≥ 1` (the write targets of tides.cpp:320-322, 342-344, 352-354). -/
def coefCol (n m : Nat) (sine : Bool) : Nat :=
  if m = 0 then n * n else if sine then n * n + 2 * m else n * n + 2 * m - 1

/-- decode a column index back into its (degree, order, sine?) triple. -/
def decodeCol (c : Nat) : Nat × Nat × Bool :=
  let n := Nat.sqrt c
  let off := c - n * n
  (n, (off + 1) / 2, off % 2 == 0 && off != 0)

/-- Call `normalize(point.at(k))` of tides.cpp:300 (`base/vector3d.h`, external):
the unit vector along `p`, with libm `sqrt` abstracted as `sqrtQ`. -/
def normalizeV (sqrtQ : ℚ → ℚ) (p : Vector3d) : Vector3d :=
  (1 / sqrtQ (p.x * p.x + p.y * p.y + p.z * p.z)) • p

/-- order-0 displacement written at column `n*n` (tides.cpp:306-322). -/
def dispOrder0 (sqrtQ : ℚ → ℚ) (Cnm Snm : Nat → Nat → ℚ) (hn ln : Nat → ℚ)
    (GM R gk : ℚ) (up : Vector3d) (n : Nat) : Vector3d :=
  let wm0 : ℚ := sqrtQ (((n : ℚ) + 1) * ((n : ℚ) + 1))
  let wp1 : ℚ := sqrtQ (((n : ℚ) + 1) * ((n : ℚ) + 2)) / sqrtQ 2
  let Cm0 : ℚ := wm0 * Cnm (n + 1) 0
  let Cp1 : ℚ := wp1 * Cnm (n + 1) 1
  let Sp1 : ℚ := wp1 * Snm (n + 1) 1
  let Vn : ℚ := GM / R * Cnm n 0
  let gradVn : Vector3d :=
    (GM / (2 * R) * sqrtQ ((2 * (n : ℚ) + 1) / (2 * (n : ℚ) + 3))) •
      (⟨-2 * Cp1, -2 * Sp1, -2 * Cm0⟩ : Vector3d)
  (hn n / gk * Vn) • up + (ln n / gk) • (gradVn - inner3d gradVn up • up)

/-- cosine-coefficient displacement written at column `n*n+2*m-1` for
`m ≥ 1` (tides.cpp:326-344). -/
def dispCos (sqrtQ : ℚ → ℚ) (Cnm Snm : Nat → Nat → ℚ) (hn ln : Nat → ℚ)
    (GM R gk : ℚ) (up : Vector3d) (n m : Nat) : Vector3d :=
  let wm1 : ℚ := sqrtQ (((n : ℚ) - (m : ℚ) + 1) * ((n : ℚ) - (m : ℚ) + 2)) *
    (if m = 1 then sqrtQ 2 else 1)
  let wm0 : ℚ := sqrtQ (((n : ℚ) - (m : ℚ) + 1) * ((n : ℚ) + (m : ℚ) + 1))
  let wp1 : ℚ := sqrtQ (((n : ℚ) + (m : ℚ) + 1) * ((n : ℚ) + (m : ℚ) + 2))
  let Cm1 : ℚ := wm1 * Cnm (n + 1) (m - 1)
  let Sm1 : ℚ := wm1 * Snm (n + 1) (m - 1)
  let Cm0 : ℚ := wm0 * Cnm (n + 1) m
  let Cp1 : ℚ := wp1 * Cnm (n + 1) (m + 1)
  let Sp1 : ℚ := wp1 * Snm (n + 1) (m + 1)
  let Vn : ℚ := GM / R * Cnm n m
  let gradVn : Vector3d :=
    (GM / (2 * R) * sqrtQ ((2 * (n : ℚ) + 1) / (2 * (n : ℚ) + 3))) •
      (⟨Cm1 - Cp1, -Sm1 - Sp1, -2 * Cm0⟩ : Vector3d)
  (hn n / gk * Vn) • up + (ln n / gk) • (gradVn - inner3d gradVn up • up)

/-- sine-coefficient displacement written at column `n*n+2*m` for `m ≥ 1`
(tides.cpp:346-354). -/
def dispSin (sqrtQ : ℚ → ℚ) (Cnm Snm : Nat → Nat → ℚ) (hn ln : Nat → ℚ)
    (GM R gk : ℚ) (up : Vector3d) (n m : Nat) : Vector3d :=
  let wm1 : ℚ := sqrtQ (((n : ℚ) - (m : ℚ) + 1) * ((n : ℚ) - (m : ℚ) + 2)) *
    (if m = 1 then sqrtQ 2 else 1)
  let wm0 : ℚ := sqrtQ (((n : ℚ) - (m : ℚ) + 1) * ((n : ℚ) + (m : ℚ) + 1))
  let wp1 : ℚ := sqrtQ (((n : ℚ) + (m : ℚ) + 1) * ((n : ℚ) + (m : ℚ) + 2))
  let Cm1 : ℚ := wm1 * Cnm (n + 1) (m - 1)
  let Sm1 : ℚ := wm1 * Snm (n + 1) (m - 1)
  let Sm0 : ℚ := wm0 * Snm (n + 1) m
  let Cp1 : ℚ := wp1 * Cnm (n + 1) (m + 1)
  let Sp1 : ℚ := wp1 * Snm (n + 1) (m + 1)
  let Vn : ℚ := GM / R * Snm n m
  let gradVn : Vector3d :=
    (GM / (2 * R) * sqrtQ ((2 * (n : ℚ) + 1) / (2 * (n : ℚ) + 3))) •
      (⟨Sm1 - Sp1, Cm1 + Cp1, -2 * Sm0⟩ : Vector3d)
  (hn n / gk * Vn) • up + (ln n / gk) • (gradVn - inner3d gradVn up • up)

/-- Method `TidesBase::deformationMatrix` (tides.cpp:291-364), expressed cellwise
(see the section comment above). -/
def deformationMatrix (sqrtQ : ℚ → ℚ)
    (cnmsnm : Vector3d → Nat → (Nat → Nat → ℚ) × (Nat → Nat → ℚ))
    (point : List Vector3d) (gravity : List ℚ) (hn ln : Nat → ℚ)
    (GM R : ℚ) (maxDegree : Nat) : GMatrix :=
  { rows := 3 * point.length
    cols := (maxDegree + 1) * (maxDegree + 1)
    entry := fun row col =>
      let p := point.getD (row / 3) 0
      let gk := gravity.getD (row / 3) 0
      let up := normalizeV sqrtQ p
      let CS := cnmsnm ((1 / R) • p) (maxDegree + 1)
      match decodeCol col with
      | (n, m, sine) =>
        if m = 0 then (dispOrder0 sqrtQ CS.1 CS.2 hn ln GM R gk up n).comp (row % 3)
        else if sine then (dispSin sqrtQ CS.1 CS.2 hn ln GM R gk up n m).comp (row % 3)
        else (dispCos sqrtQ CS.1 CS.2 hn ln GM R gk up n m).comp (row % 3) }

/-!
## Batch and single-point deformation of the base component
(`TidesBase::deformation`, tides.cpp:252-287)

`rotEarth` is modelled as a total index function (the C++ takes a
`std::vector<Rotary3d>` whose size the caller must match to `time`);
`sh time rot` stands for the component's virtual `sphericalHarmonics`
evaluation with the rotation/ephemerides providers closed over. -/

/-- Modelled from the spec: `SphericalHarmonics::deformation`
(`base/sphericalHarmonics.cpp`, not among the examined sources) — the
per-station deformation operator "mapping spherical-harmonic coefficients
to a 3-D displacement vector" depends "only on load-Love-numbers, reference
GM/R, and point geometry"; the single-point displacement is that operator,
built for this field's GM/R/maxDegree at this point, applied to the field's
packed coefficient vector. -/
def SphericalHarmonics.deformation (sqrtQ : ℚ → ℚ)
    (cnmsnm : Vector3d → Nat → (Nat → Nat → ℚ) × (Nat → Nat → ℚ))
    (f : SphericalHarmonics) (point : Vector3d) (gravity : ℚ)
    (hn ln : Nat → ℚ) : Vector3d :=
  let A := deformationMatrix sqrtQ cnmsnm [point] [gravity] hn ln f.GM f.R f.maxDegree
  ⟨A.mulVec f.x 0, A.mulVec f.x 1, A.mulVec f.x 2⟩

/-- Method `TidesBase::deformation`, single point (tides.cpp:252-257): evaluate the
field at `(time, rotEarth)` and take its deformation at the point. -/
def TidesBase.deformationSingle {Rot : Type} (sh : ℚ → Rot → SphericalHarmonics)
    (sqrtQ : ℚ → ℚ) (cnmsnm : Vector3d → Nat → (Nat → Nat → ℚ) × (Nat → Nat → ℚ))
    (time : ℚ) (rotEarth : Rot) (point : Vector3d) (gravity : ℚ)
    (hn ln : Nat → ℚ) : Vector3d :=
  (sh time rotEarth).deformation sqrtQ cnmsnm point gravity hn ln

/-- Method `TidesBase::deformation`, batch (tides.cpp:261-287): early return when
the time or point list is empty; otherwise one deformation matrix is built
from the field at `time.at(0)` and, for every epoch `i`, `A * x_i` is
*added* into `disp.at(k).at(i)` for every point `k`. -/
def TidesBase.deformationBatch {Rot : Type} (sh : ℚ → Rot → SphericalHarmonics)
    (sqrtQ : ℚ → ℚ) (cnmsnm : Vector3d → Nat → (Nat → Nat → ℚ) × (Nat → Nat → ℚ))
    (time : List ℚ) (point : List Vector3d) (rotEarth : Nat → Rot)
    (gravity : List ℚ) (hn ln : Nat → ℚ)
    (disp : List (List Vector3d)) : List (List Vector3d) :=
  if time.length = 0 ∨ point.length = 0 then disp
  else
    -- the locals `harm` (field at time.at(0)), `A` (shared matrix) and
    -- `Ax` (A * coefficient vector of epoch i) of the C++ are inlined here
    disp.mapIdx fun k row =>
      row.mapIdx fun i v =>
        if k < point.length ∧ i < time.length then
          Vector3d.mk
            (v.x + (deformationMatrix sqrtQ cnmsnm point gravity hn ln
                (sh (time.getD 0 0) (rotEarth 0)).GM
                (sh (time.getD 0 0) (rotEarth 0)).R
                (sh (time.getD 0 0) (rotEarth 0)).maxDegree).mulVec
                (sh (time.getD i 0) (rotEarth i)).x (3 * k + 0))
            (v.y + (deformationMatrix sqrtQ cnmsnm point gravity hn ln
                (sh (time.getD 0 0) (rotEarth 0)).GM
                (sh (time.getD 0 0) (rotEarth 0)).R
                (sh (time.getD 0 0) (rotEarth 0)).maxDegree).mulVec
                (sh (time.getD i 0) (rotEarth i)).x (3 * k + 1))
            (v.z + (deformationMatrix sqrtQ cnmsnm point gravity hn ln
                (sh (time.getD 0 0) (rotEarth 0)).GM
                (sh (time.getD 0 0) (rotEarth 0)).R
                (sh (time.getD 0 0) (rotEarth 0)).maxDegree).mulVec
                (sh (time.getD i 0) (rotEarth i)).x (3 * k + 2))
        else v

/-! ### Column-layout lemmas for the deformation matrix -/

theorem coefCol_zero (n : Nat) (s : Bool) : coefCol n 0 s = n * n := by
  simp [coefCol]

theorem coefCol_pos_true (n m : Nat) (hm : m ≠ 0) :
    coefCol n m true = n * n + 2 * m := by
  simp [coefCol, hm]

theorem coefCol_pos_false (n m : Nat) (hm : m ≠ 0) :
    coefCol n m false = n * n + 2 * m - 1 := by
  simp [coefCol, hm]

theorem decodeCol_coefCol (n m : Nat) (sine : Bool) (hmn : m ≤ n)
    (h0 : m = 0 → sine = false) :
    decodeCol (coefCol n m sine) = (n, m, sine) := by
  by_cases hm : m = 0
  · subst hm
    rw [h0 rfl, coefCol_zero]
    simp [decodeCol, Nat.sqrt_eq]
  · cases sine with
    | true =>
      rw [coefCol_pos_true n m hm]
      have hs : Nat.sqrt (n * n + 2 * m) = n := Nat.sqrt_add_eq n (by omega)
      simp only [decodeCol, hs, Prod.mk.injEq]
      refine ⟨by trivial, by omega, ?_⟩
      have h2 : n * n + 2 * m - n * n = 2 * m := by omega
      have h3 : (2 * m) % 2 = 0 := by omega
      have h4 : 2 * m ≠ 0 := by omega
      simp [h2, h3, h4]
    | false =>
      rw [coefCol_pos_false n m hm]
      have hc : n * n + 2 * m - 1 = n * n + (2 * m - 1) := by omega
      have hs : Nat.sqrt (n * n + (2 * m - 1)) = n := Nat.sqrt_add_eq n (by omega)
      rw [hc]
      simp only [decodeCol, hs, Prod.mk.injEq]
      refine ⟨by trivial, by omega, ?_⟩
      have h2 : n * n + (2 * m - 1) - n * n = 2 * m - 1 := by omega
      have h3 : (2 * m - 1) % 2 = 1 := by omega
      simp [h2, h3]

theorem coefCol_lt (d n m : Nat) (sine : Bool) (hmn : m ≤ n) (hnd : n ≤ d) :
    coefCol n m sine < (d + 1) * (d + 1) := by
  have h2 : (n + 1) * (n + 1) ≤ (d + 1) * (d + 1) :=
    Nat.mul_le_mul (by omega) (by omega)
  have key : ∀ off, off ≤ 2 * n → n * n + off < (d + 1) * (d + 1) := by
    intro off hoff
    have h3 : n * n + off < (n + 1) * (n + 1) := by nlinarith
    omega
  by_cases hm : m = 0
  · subst hm
    rw [coefCol_zero]
    simpa using key 0 (by omega)
  · cases sine with
    | true =>
      rw [coefCol_pos_true n m hm]
      exact key (2 * m) (by omega)
    | false =>
      rw [coefCol_pos_false n m hm]
      have := key (2 * m - 1) (by omega)
      omega

theorem coefCol_surjective (d c : Nat) (hc : c < (d + 1) * (d + 1)) :
    ∃ n m s, m ≤ n ∧ n ≤ d ∧ (m = 0 → s = false) ∧ coefCol n m s = c := by
  have h1 : Nat.sqrt c * Nat.sqrt c ≤ c := Nat.sqrt_le c
  have h2 : c < (Nat.sqrt c + 1) * (Nat.sqrt c + 1) := Nat.lt_succ_sqrt c
  have hnd : Nat.sqrt c ≤ d := by
    by_contra hlt
    push_neg at hlt
    exact absurd hc (not_lt.mpr (le_trans (Nat.mul_le_mul hlt hlt) h1))
  have hexp : (Nat.sqrt c + 1) * (Nat.sqrt c + 1) =
      Nat.sqrt c * Nat.sqrt c + 2 * Nat.sqrt c + 1 := by ring
  have hoff : c - Nat.sqrt c * Nat.sqrt c ≤ 2 * Nat.sqrt c := by omega
  by_cases h0 : c - Nat.sqrt c * Nat.sqrt c = 0
  · refine ⟨Nat.sqrt c, 0, false, Nat.zero_le _, hnd, fun _ => rfl, ?_⟩
    rw [coefCol_zero]
    omega
  · by_cases hpar : (c - Nat.sqrt c * Nat.sqrt c) % 2 = 0
    · refine ⟨Nat.sqrt c, (c - Nat.sqrt c * Nat.sqrt c) / 2, true, by omega, hnd,
        fun hh => absurd hh (by omega), ?_⟩
      rw [coefCol_pos_true _ _ (by omega)]
      omega
    · refine ⟨Nat.sqrt c, (c - Nat.sqrt c * Nat.sqrt c + 1) / 2, false, by omega, hnd,
        fun _ => rfl, ?_⟩
      rw [coefCol_pos_false _ _ (by omega)]
      omega

/-- The rows `3k..3k+2` of the deformation matrix depend only on point `k`:
they coincide with the rows of the single-point matrix built for that
point. -/
theorem deformationMatrix_entry_block (sqrtQ : ℚ → ℚ)
    (cnmsnm : Vector3d → Nat → (Nat → Nat → ℚ) × (Nat → Nat → ℚ))
    (point : List Vector3d) (gravity : List ℚ) (hn ln : Nat → ℚ)
    (GM R : ℚ) (maxDegree : Nat) (k r c : Nat) (hr : r < 3) :
    (deformationMatrix sqrtQ cnmsnm point gravity hn ln GM R maxDegree).entry
        (3 * k + r) c =
    (deformationMatrix sqrtQ cnmsnm [point.getD k 0] [gravity.getD k 0]
        hn ln GM R maxDegree).entry r c := by
  have hdiv : (3 * k + r) / 3 = k := by omega
  have hmod : (3 * k + r) % 3 = r := by omega
  have h0 : r / 3 = 0 := by omega
  have h0m : r % 3 = r := by omega
  simp only [deformationMatrix, hdiv, hmod, h0, h0m, List.getD]
  rfl

/-- Row-block version of `deformationMatrix_entry_block` for a whole
matrix-vector product: row `3k+r` of `A * x` equals row `r` of the
single-point matrix of point `k` times the same `x`. -/
theorem deformationMatrix_mulVec_block (sqrtQ : ℚ → ℚ)
    (cnmsnm : Vector3d → Nat → (Nat → Nat → ℚ) × (Nat → Nat → ℚ))
    (point : List Vector3d) (gravity : List ℚ) (hn ln : Nat → ℚ)
    (GM R : ℚ) (maxDegree : Nat) (x : Nat → ℚ) (k r : Nat) (hr : r < 3) :
    (deformationMatrix sqrtQ cnmsnm point gravity hn ln GM R maxDegree).mulVec
        x (3 * k + r) =
    (deformationMatrix sqrtQ cnmsnm [point.getD k 0] [gravity.getD k 0]
        hn ln GM R maxDegree).mulVec x r := by
  unfold GMatrix.mulVec
  refine Finset.sum_congr rfl ?_
  intro c _
  rw [deformationMatrix_entry_block sqrtQ cnmsnm point gravity hn ln GM R maxDegree k r c hr]

/-- Cell `(k, i)` of the batch deformation output: the previous content of
`disp` plus the rows `3k..3k+2` of `A * x_i`, where `A` is the single shared
deformation matrix built from the field at `time.at(0)` and `x_i` the
coefficient vector of the field at `time.at(i)`. -/
theorem deformationBatch_getD {Rot : Type} (sh : ℚ → Rot → SphericalHarmonics)
    (sqrtQ : ℚ → ℚ) (cnmsnm : Vector3d → Nat → (Nat → Nat → ℚ) × (Nat → Nat → ℚ))
    (time : List ℚ) (point : List Vector3d) (rotEarth : Nat → Rot)
    (gravity : List ℚ) (hn ln : Nat → ℚ) (disp : List (List Vector3d))
    (k i : Nat) (hk : k < point.length) (hi : i < time.length)
    (hk' : k < disp.length) (hi' : i < (disp.getD k []).length) :
    ((TidesBase.deformationBatch sh sqrtQ cnmsnm time point rotEarth gravity hn ln
        disp).getD k []).getD i 0 =
    (disp.getD k []).getD i 0 +
      Vector3d.mk
        ((deformationMatrix sqrtQ cnmsnm point gravity hn ln
            (sh (time.getD 0 0) (rotEarth 0)).GM (sh (time.getD 0 0) (rotEarth 0)).R
            (sh (time.getD 0 0) (rotEarth 0)).maxDegree).mulVec
          (sh (time.getD i 0) (rotEarth i)).x (3 * k + 0))
        ((deformationMatrix sqrtQ cnmsnm point gravity hn ln
            (sh (time.getD 0 0) (rotEarth 0)).GM (sh (time.getD 0 0) (rotEarth 0)).R
            (sh (time.getD 0 0) (rotEarth 0)).maxDegree).mulVec
          (sh (time.getD i 0) (rotEarth i)).x (3 * k + 1))
        ((deformationMatrix sqrtQ cnmsnm point gravity hn ln
            (sh (time.getD 0 0) (rotEarth 0)).GM (sh (time.getD 0 0) (rotEarth 0)).R
            (sh (time.getD 0 0) (rotEarth 0)).maxDegree).mulVec
          (sh (time.getD i 0) (rotEarth i)).x (3 * k + 2)) := by
  unfold TidesBase.deformationBatch
  rw [if_neg (by omega)]
  rw [List.getD_eq_getElem _ _ (show k < _ by simpa using hk')]
  rw [List.getElem_mapIdx]
  rw [List.getD_eq_getElem _ _ hk'] at hi' ⊢
  rw [List.getD_eq_getElem _ _ (show i < _ by simpa using hi')]
  rw [List.getElem_mapIdx]
  rw [List.getD_eq_getElem _ _ hi']
  rw [if_pos ⟨hk, hi⟩]
  rw [vec3d_add_def]

/-! ### Aggregation lemmas -/

theorem foldl_add_map_eq_sum {M α : Type} [AddCommMonoid M] (f : α → M)
    (l : List α) (v : M) :
    l.foldl (fun s c => s + f c) v = v + (l.map f).sum := by
  induction l generalizing v with
  | nil => simp
  | cons a t ih => simp [List.sum_cons, ih, add_assoc]

/-- C3: the aggregator `Tides` is additive in its component list: over a
concatenated list `A ++ B` each of `potential`, `radialGradient`,
`acceleration` and `gradient` equals the sum of the aggregate over `A` and
the aggregate over `B` at the same inputs, and each aggregate is the sum of
the per-component contributions in configuration order. -/
theorem tides_aggregate_additive {α β γ δ : Type}
    (A B L : List (TideComponent α β γ δ)) (a : α) :
    (Tides.potential (A ++ B) a = Tides.potential A a + Tides.potential B a ∧
     Tides.radialGradient (A ++ B) a =
       Tides.radialGradient A a + Tides.radialGradient B a ∧
     Tides.acceleration (A ++ B) a =
       Tides.acceleration A a + Tides.acceleration B a ∧
     Tides.gradient (A ++ B) a = Tides.gradient A a + Tides.gradient B a) ∧
    (Tides.potential L a = (L.map (fun c => c.potential a)).sum ∧
     Tides.radialGradient L a = (L.map (fun c => c.radialGradient a)).sum ∧
     Tides.acceleration L a = (L.map (fun c => c.gravity a)).sum ∧
     Tides.gradient L a = (L.map (fun c => c.gravityGradient a)).sum) := by
  unfold Tides.potential Tides.radialGradient Tides.acceleration Tides.gradient
  simp only [foldl_add_map_eq_sum, List.map_append, List.sum_append, zero_add]
  refine ⟨⟨?_, ?_, ?_, ?_⟩, ?_, ?_, ?_, ?_⟩ <;> trivial

/-- C6: an aggregator with an empty component list returns the zero scalar
potential, zero radial gradient, the zero acceleration vector, the zero
gradient tensor, and the default-constructed (all-zero coefficients)
spherical-harmonics field. -/
theorem tides_empty_aggregator_zero {α β γ δ : Type} (a : α) (d : δ) :
    Tides.potential ([] : List (TideComponent α β γ δ)) a = 0 ∧
    Tides.radialGradient ([] : List (TideComponent α β γ δ)) a = 0 ∧
    Tides.acceleration ([] : List (TideComponent α β γ δ)) a = 0 ∧
    Tides.gradient ([] : List (TideComponent α β γ δ)) a = 0 ∧
    Tides.sphericalHarmonics ([] : List (TideComponent α β γ δ)) d =
      SphericalHarmonics.emptyField ∧
    (∀ c, (Tides.sphericalHarmonics ([] : List (TideComponent α β γ δ)) d).x c = 0) :=
  ⟨rfl, rfl, rfl, rfl, rfl, fun _ => rfl⟩

/-- C8: `deformationMatrix` for `K` points yields a `3K × (maxDegree+1)²`
matrix; the (degree `n`, order `m`) coefficient occupies exactly one column
(`n²` for `m = 0`, `n²+2m-1` / `n²+2m` for the cosine / sine coefficient at
`m ≥ 1`): the column map is injective over valid `(n, m, cos/sine)` triples,
every column below `(maxDegree+1)²` is hit, and the matrix cell at row
`3k+r` of such a column holds the corresponding displacement component for
point `k`. -/
theorem deformationMatrix_shape_and_columns (sqrtQ : ℚ → ℚ)
    (cnmsnm : Vector3d → Nat → (Nat → Nat → ℚ) × (Nat → Nat → ℚ))
    (point : List Vector3d) (gravity : List ℚ) (hn ln : Nat → ℚ)
    (GM R : ℚ) (maxDegree : Nat) :
    ((deformationMatrix sqrtQ cnmsnm point gravity hn ln GM R maxDegree).rows
        = 3 * point.length ∧
     (deformationMatrix sqrtQ cnmsnm point gravity hn ln GM R maxDegree).cols
        = (maxDegree + 1) ^ 2) ∧
    (∀ n m sine, m ≤ n → n ≤ maxDegree → (m = 0 → sine = false) →
       (coefCol n m sine =
          if m = 0 then n * n else if sine then n * n + 2 * m else n * n + 2 * m - 1) ∧
       coefCol n m sine < (maxDegree + 1) ^ 2 ∧
       decodeCol (coefCol n m sine) = (n, m, sine)) ∧
    (∀ n m s n' m' s', m ≤ n → m' ≤ n' → (m = 0 → s = false) → (m' = 0 → s' = false) →
       coefCol n m s = coefCol n' m' s' → n = n' ∧ m = m' ∧ s = s') ∧
    (∀ c, c < (maxDegree + 1) ^ 2 →
       ∃ n m s, m ≤ n ∧ n ≤ maxDegree ∧ (m = 0 → s = false) ∧ coefCol n m s = c) ∧
    (∀ k r n, r < 3 → n ≤ maxDegree →
       (deformationMatrix sqrtQ cnmsnm point gravity hn ln GM R maxDegree).entry
           (3 * k + r) (coefCol n 0 false) =
         (dispOrder0 sqrtQ (cnmsnm ((1 / R) • point.getD k 0) (maxDegree + 1)).1
            (cnmsnm ((1 / R) • point.getD k 0) (maxDegree + 1)).2 hn ln GM R
            (gravity.getD k 0) (normalizeV sqrtQ (point.getD k 0)) n).comp r) ∧
    (∀ k r n m, r < 3 → 1 ≤ m → m ≤ n → n ≤ maxDegree →
       (deformationMatrix sqrtQ cnmsnm point gravity hn ln GM R maxDegree).entry
           (3 * k + r) (coefCol n m false) =
         (dispCos sqrtQ (cnmsnm ((1 / R) • point.getD k 0) (maxDegree + 1)).1
            (cnmsnm ((1 / R) • point.getD k 0) (maxDegree + 1)).2 hn ln GM R
            (gravity.getD k 0) (normalizeV sqrtQ (point.getD k 0)) n m).comp r ∧
       (deformationMatrix sqrtQ cnmsnm point gravity hn ln GM R maxDegree).entry
           (3 * k + r) (coefCol n m true) =
         (dispSin sqrtQ (cnmsnm ((1 / R) • point.getD k 0) (maxDegree + 1)).1
            (cnmsnm ((1 / R) • point.getD k 0) (maxDegree + 1)).2 hn ln GM R
            (gravity.getD k 0) (normalizeV sqrtQ (point.getD k 0)) n m).comp r) := by
  refine ⟨⟨rfl, by rw [pow_two]; rfl⟩, ?_, ?_, ?_, ?_, ?_⟩
  · intro n m sine hmn hnd h0
    exact ⟨rfl, by rw [pow_two]; exact coefCol_lt maxDegree n m sine hmn hnd,
      decodeCol_coefCol n m sine hmn h0⟩
  · intro n m s n' m' s' hmn hmn' h0 h0' heq
    have h := congrArg decodeCol heq
    rw [decodeCol_coefCol n m s hmn h0, decodeCol_coefCol n' m' s' hmn' h0'] at h
    simpa using h
  · intro c hc
    rw [pow_two] at hc
    exact coefCol_surjective maxDegree c hc
  · intro k r n hr hnd
    have hdiv : (3 * k + r) / 3 = k := by omega
    have hmod : (3 * k + r) % 3 = r := by omega
    have hdec : decodeCol (coefCol n 0 false) = (n, 0, false) :=
      decodeCol_coefCol n 0 false (Nat.zero_le n) (fun _ => rfl)
    simp only [deformationMatrix, hdiv, hmod, hdec]
    simp
  · intro k r n m hr hm1 hmn hnd
    have hdiv : (3 * k + r) / 3 = k := by omega
    have hmod : (3 * k + r) % 3 = r := by omega
    have hm0 : m ≠ 0 := by omega
    have hdecC : decodeCol (coefCol n m false) = (n, m, false) :=
      decodeCol_coefCol n m false hmn (fun h => absurd h hm0)
    have hdecS : decodeCol (coefCol n m true) = (n, m, true) :=
      decodeCol_coefCol n m true hmn (fun h => absurd h hm0)
    constructor
    · simp only [deformationMatrix, hdiv, hmod, hdecC]
      simp [hm0]
    · simp only [deformationMatrix, hdiv, hmod, hdecS]
      simp [hm0]

/-- Witness for `deformationMatrix_shape_and_columns` at concrete inputs. -/
theorem deformationMatrix_shape_and_columns_witness :
    coefCol 2 1 true < (2 + 1) ^ 2 ∧ decodeCol (coefCol 2 1 true) = (2, 1, true) :=
  ((deformationMatrix_shape_and_columns (fun q => q)
      (fun _ _ => (fun _ _ => 0, fun _ _ => 0)) [⟨1, 0, 0⟩] [1]
      (fun _ => 0) (fun _ => 0) 1 1 2).2.1 2 1 true (by decide) (by decide)
      (by decide)).2

/-- C2: with the deformation basis reused across epochs, the batch
deformation path (one shared matrix built from the field at `time.at(0)`,
then one matrix-vector product per epoch, accumulated into a
zero-initialised array) produces at cell `(k, i)` exactly the single-point
deformation of point `k` at time `i`, provided the component's fields carry
the same GM, reference radius and maximum degree at every epoch. -/
theorem tidesBase_batch_matches_single {Rot : Type}
    (sh : ℚ → Rot → SphericalHarmonics) (sqrtQ : ℚ → ℚ)
    (cnmsnm : Vector3d → Nat → (Nat → Nat → ℚ) × (Nat → Nat → ℚ))
    (time : List ℚ) (point : List Vector3d) (rotEarth : Nat → Rot)
    (gravity : List ℚ) (hn ln : Nat → ℚ) (k i : Nat)
    (hk : k < point.length) (hi : i < time.length)
    (hGM : ∀ j, j < time.length →
      (sh (time.getD j 0) (rotEarth j)).GM = (sh (time.getD 0 0) (rotEarth 0)).GM)
    (hR : ∀ j, j < time.length →
      (sh (time.getD j 0) (rotEarth j)).R = (sh (time.getD 0 0) (rotEarth 0)).R)
    (hdeg : ∀ j, j < time.length →
      (sh (time.getD j 0) (rotEarth j)).maxDegree =
        (sh (time.getD 0 0) (rotEarth 0)).maxDegree) :
    ((TidesBase.deformationBatch sh sqrtQ cnmsnm time point rotEarth gravity hn ln
        (List.replicate point.length (List.replicate time.length 0))).getD k []).getD
      i 0 =
    TidesBase.deformationSingle sh sqrtQ cnmsnm (time.getD i 0) (rotEarth i)
      (point.getD k 0) (gravity.getD k 0) hn ln := by
  have hk' : k < (List.replicate point.length
      (List.replicate time.length (0 : Vector3d))).length := by simpa using hk
  have hi' : i < ((List.replicate point.length
      (List.replicate time.length (0 : Vector3d))).getD k []).length := by
    rw [List.getD_eq_getElem _ _ hk', List.getElem_replicate]
    simpa using hi
  rw [deformationBatch_getD sh sqrtQ cnmsnm time point rotEarth gravity hn ln
      _ k i hk hi hk' hi']
  have hold : ((List.replicate point.length
      (List.replicate time.length (0 : Vector3d))).getD k []).getD i 0 = 0 := by
    rw [List.getD_eq_getElem _ _ hk', List.getElem_replicate,
      List.getD_eq_getElem _ _ (by simpa using hi), List.getElem_replicate]
  rw [hold, zero_add]
  rw [deformationMatrix_mulVec_block sqrtQ cnmsnm point gravity hn ln _ _ _ _ k 0
      (by omega),
    deformationMatrix_mulVec_block sqrtQ cnmsnm point gravity hn ln _ _ _ _ k 1
      (by omega),
    deformationMatrix_mulVec_block sqrtQ cnmsnm point gravity hn ln _ _ _ _ k 2
      (by omega)]
  unfold TidesBase.deformationSingle SphericalHarmonics.deformation
  rw [hGM i hi, hR i hi, hdeg i hi]

/-- Witness for `tidesBase_batch_matches_single` at concrete inputs. -/
theorem tidesBase_batch_matches_single_witness :
    ((TidesBase.deformationBatch
        (fun _ (_ : Unit) => ⟨1, 1, 0, fun _ => 1⟩) (fun q => q)
        (fun _ _ => (fun _ _ => 1, fun _ _ => 0)) [0] [⟨1, 0, 0⟩] (fun _ => ())
        [1] (fun _ => 1) (fun _ => 0)
        (List.replicate ([(⟨1, 0, 0⟩ : Vector3d)]).length
          (List.replicate ([(0 : ℚ)]).length 0))).getD 0 []).getD 0 0 =
    TidesBase.deformationSingle (fun _ (_ : Unit) => ⟨1, 1, 0, fun _ => 1⟩)
      (fun q => q) (fun _ _ => (fun _ _ => 1, fun _ _ => 0))
      (([(0 : ℚ)]).getD 0 0) () (([(⟨1, 0, 0⟩ : Vector3d)]).getD 0 0)
      (([(1 : ℚ)]).getD 0 0) (fun _ => 1) (fun _ => 0) :=
  tidesBase_batch_matches_single (fun _ _ => ⟨1, 1, 0, fun _ => 1⟩) (fun q => q)
    (fun _ _ => (fun _ _ => 1, fun _ _ => 0)) [0] [⟨1, 0, 0⟩] (fun _ => ())
    [1] (fun _ => 1) (fun _ => 0) 0 0 (by decide) (by decide)
    (fun _ _ => rfl) (fun _ _ => rfl) (fun _ _ => rfl)

/-- C10: the batch deformation accumulates into `disp` instead of
overwriting it — when the time or the point list is empty the array is
returned untouched, otherwise each cell receives its old value plus a
contribution that does not depend on `disp`; the aggregator's batch path
threads `disp` through the components sequentially, so a concatenated
component list adds the contributions of both parts. -/
theorem tidesBase_batch_accumulate {Rot : Type}
    (sh : ℚ → Rot → SphericalHarmonics) (sqrtQ : ℚ → ℚ)
    (cnmsnm : Vector3d → Nat → (Nat → Nat → ℚ) × (Nat → Nat → ℚ))
    (time : List ℚ) (point : List Vector3d) (rotEarth : Nat → Rot)
    (gravity : List ℚ) (hn ln : Nat → ℚ) :
    (∀ disp : List (List Vector3d), time = [] ∨ point = [] →
       TidesBase.deformationBatch sh sqrtQ cnmsnm time point rotEarth gravity hn ln
         disp = disp) ∧
    (∀ k i, k < point.length → i < time.length →
       ∀ disp : List (List Vector3d), k < disp.length →
         i < (disp.getD k []).length →
         ((TidesBase.deformationBatch sh sqrtQ cnmsnm time point rotEarth gravity
             hn ln disp).getD k []).getD i 0 =
           (disp.getD k []).getD i 0 +
             Vector3d.mk
               ((deformationMatrix sqrtQ cnmsnm point gravity hn ln
                   (sh (time.getD 0 0) (rotEarth 0)).GM
                   (sh (time.getD 0 0) (rotEarth 0)).R
                   (sh (time.getD 0 0) (rotEarth 0)).maxDegree).mulVec
                 (sh (time.getD i 0) (rotEarth i)).x (3 * k + 0))
               ((deformationMatrix sqrtQ cnmsnm point gravity hn ln
                   (sh (time.getD 0 0) (rotEarth 0)).GM
                   (sh (time.getD 0 0) (rotEarth 0)).R
                   (sh (time.getD 0 0) (rotEarth 0)).maxDegree).mulVec
                 (sh (time.getD i 0) (rotEarth i)).x (3 * k + 1))
               ((deformationMatrix sqrtQ cnmsnm point gravity hn ln
                   (sh (time.getD 0 0) (rotEarth 0)).GM
                   (sh (time.getD 0 0) (rotEarth 0)).R
                   (sh (time.getD 0 0) (rotEarth 0)).maxDegree).mulVec
                 (sh (time.getD i 0) (rotEarth i)).x (3 * k + 2))) ∧
    (∀ (α β γ δ : Type) (A B : List (TideComponent α β γ δ)) (g : γ)
       (disp : List (List Vector3d)),
       Tides.deformationBatch (A ++ B) g disp =
         Tides.deformationBatch B g (Tides.deformationBatch A g disp)) := by
  refine ⟨?_, ?_, ?_⟩
  · intro disp h
    have hlen : time.length = 0 ∨ point.length = 0 := by
      rcases h with h | h <;> simp [h]
    unfold TidesBase.deformationBatch
    rw [if_pos hlen]
  · intro k i hk hi disp hk' hi'
    exact deformationBatch_getD sh sqrtQ cnmsnm time point rotEarth gravity hn ln
      disp k i hk hi hk' hi'
  · intro α β γ δ A B g disp
    unfold Tides.deformationBatch
    rw [List.foldl_append]

/-- Witness for `tidesBase_batch_accumulate` at concrete inputs. -/
theorem tidesBase_batch_accumulate_witness :
    (TidesBase.deformationBatch (fun _ (_ : Unit) => ⟨1, 1, 0, fun _ => 1⟩)
        (fun q => q) (fun _ _ => (fun _ _ => 1, fun _ _ => 0)) [] [⟨1, 0, 0⟩]
        (fun _ => ()) [1] (fun _ => 1) (fun _ => 0) [[⟨5, 6, 7⟩]] = [[⟨5, 6, 7⟩]]) ∧
    ((TidesBase.deformationBatch (fun _ (_ : Unit) => ⟨1, 1, 0, fun _ => 1⟩)
        (fun q => q) (fun _ _ => (fun _ _ => 1, fun _ _ => 0)) [0] [⟨1, 0, 0⟩]
        (fun _ => ()) [1] (fun _ => 1) (fun _ => 0) [[⟨5, 6, 7⟩]]).getD 0 []).getD 0 0 =
      (([[(⟨5, 6, 7⟩ : Vector3d)]].getD 0 []).getD 0 0 +
        Vector3d.mk
          ((deformationMatrix (fun q => q) (fun _ _ => (fun _ _ => 1, fun _ _ => 0))
              [⟨1, 0, 0⟩] [1] (fun _ => 1) (fun _ => 0)
              ((fun _ (_ : Unit) => (⟨1, 1, 0, fun _ => 1⟩ : SphericalHarmonics))
                (([(0 : ℚ)]).getD 0 0) ()).GM
              ((fun _ (_ : Unit) => (⟨1, 1, 0, fun _ => 1⟩ : SphericalHarmonics))
                (([(0 : ℚ)]).getD 0 0) ()).R
              ((fun _ (_ : Unit) => (⟨1, 1, 0, fun _ => 1⟩ : SphericalHarmonics))
                (([(0 : ℚ)]).getD 0 0) ()).maxDegree).mulVec
            ((fun _ (_ : Unit) => (⟨1, 1, 0, fun _ => 1⟩ : SphericalHarmonics))
              (([(0 : ℚ)]).getD 0 0) ()).x (3 * 0 + 0))
          ((deformationMatrix (fun q => q) (fun _ _ => (fun _ _ => 1, fun _ _ => 0))
              [⟨1, 0, 0⟩] [1] (fun _ => 1) (fun _ => 0)
              ((fun _ (_ : Unit) => (⟨1, 1, 0, fun _ => 1⟩ : SphericalHarmonics))
                (([(0 : ℚ)]).getD 0 0) ()).GM
              ((fun _ (_ : Unit) => (⟨1, 1, 0, fun _ => 1⟩ : SphericalHarmonics))
                (([(0 : ℚ)]).getD 0 0) ()).R
              ((fun _ (_ : Unit) => (⟨1, 1, 0, fun _ => 1⟩ : SphericalHarmonics))
                (([(0 : ℚ)]).getD 0 0) ()).maxDegree).mulVec
            ((fun _ (_ : Unit) => (⟨1, 1, 0, fun _ => 1⟩ : SphericalHarmonics))
              (([(0 : ℚ)]).getD 0 0) ()).x (3 * 0 + 1))
          ((deformationMatrix (fun q => q) (fun _ _ => (fun _ _ => 1, fun _ _ => 0))
              [⟨1, 0, 0⟩] [1] (fun _ => 1) (fun _ => 0)
              ((fun _ (_ : Unit) => (⟨1, 1, 0, fun _ => 1⟩ : SphericalHarmonics))
                (([(0 : ℚ)]).getD 0 0) ()).GM
              ((fun _ (_ : Unit) => (⟨1, 1, 0, fun _ => 1⟩ : SphericalHarmonics))
                (([(0 : ℚ)]).getD 0 0) ()).R
              ((fun _ (_ : Unit) => (⟨1, 1, 0, fun _ => 1⟩ : SphericalHarmonics))
                (([(0 : ℚ)]).getD 0 0) ()).maxDegree).mulVec
            ((fun _ (_ : Unit) => (⟨1, 1, 0, fun _ => 1⟩ : SphericalHarmonics))
              (([(0 : ℚ)]).getD 0 0) ()).x (3 * 0 + 2))) :=
  ⟨(tidesBase_batch_accumulate (fun _ (_ : Unit) => ⟨1, 1, 0, fun _ => 1⟩)
      (fun q => q) (fun _ _ => (fun _ _ => 1, fun _ _ => 0)) [] [⟨1, 0, 0⟩]
      (fun _ => ()) [1] (fun _ => 1) (fun _ => 0)).1 [[⟨5, 6, 7⟩]] (Or.inl rfl),
   (tidesBase_batch_accumulate (fun _ (_ : Unit) => ⟨1, 1, 0, fun _ => 1⟩)
      (fun q => q) (fun _ _ => (fun _ _ => 1, fun _ _ => 0)) [0] [⟨1, 0, 0⟩]
      (fun _ => ()) [1] (fun _ => 1) (fun _ => 0)).2.1 0 0 (by decide) (by decide)
      [[⟨5, 6, 7⟩]] (by decide) (by decide)⟩

/-!
## Earth rotation according to IERS 2010
(`classes/earthRotation/earthRotationIers2010.cpp`)

A `Time` is a rational modified Julian date; `mjd2time` is the identity and
`Time::seconds()` of a difference of days is `86400 *` that difference.
The external collaborators — the leap-second aware conversions
`timeUTC2GPS`/`timeGPS2UTC`/`timeGPS2TT` of `base/time.h`, the IERS model
routines `ortho_eop`, `pmsdnut2`, `utlibr` of `external/iers`, the ERFA
routines `eraSp00`, `eraXys00b`, `eraXy06`, `eraS06` (functions of the TT
instant; the C++ passes the instant split as Julian day + fraction), the
constant `DEG2RAD` of `base/constants.h`, and the degree-3-bound polynomial
interpolator `Polynomial::interpolate` of `base/polynomial.h` applied
per column — are collected as abstract functions. -/

structure ExternalModels where
  gps2utc : ℚ → ℚ
  utc2gps : ℚ → ℚ
  gps2tt : ℚ → ℚ
  orthoEop : ℚ → Fin 3 → ℚ
  pmsdnut2 : ℚ → Fin 2 → ℚ
  utlibr : ℚ → ℚ × ℚ
  eraSp00 : ℚ → ℚ
  eraXys00b : ℚ → ℚ × ℚ × ℚ
  eraXy06 : ℚ → ℚ × ℚ
  eraS06 : ℚ → ℚ → ℚ → ℚ
  interp : List ℚ → List ℚ → ℚ → ℚ
  deg2rad : ℚ

/-- The two error kinds of this unit: `OutOfRangeError`
("No EOPs available: <time>", earthRotationIers2010.cpp:85) and
`MissingDependencyError` ("Compiled without ERFA library", lines 37/75). -/
inductive EopError where
  | outOfRange (timeGPS : ℚ)
  | missingDependency
  deriving DecidableEq, Repr

/-- The loaded interpolator state: sample times (UTC mjd) and the unit-
converted six-column EOP table (xp, yp, ΔUT1, LOD, dX, dY). -/
structure EarthRotationIers2010 where
  useTruncated : Bool
  times : List ℚ
  EOP : List (Fin 6 → ℚ)

/-- EOP loading of the constructor (earthRotationIers2010.cpp:44-59):
`times` from column 0; column 2 (UT1-UTC) has the UTC→GPS offset at the
sample time subtracted (UT1-GPS, avoiding leap-second jumps); columns
0, 1, 4, 5 (xp, yp, dX, dY) are scaled by `DEG2RAD/3600` (arcsec → rad);
column 3 (LOD, seconds) is unchanged. -/
def EarthRotationIers2010.load (M : ExternalModels) (useTruncated : Bool)
    (rows : List (ℚ × (Fin 6 → ℚ))) : EarthRotationIers2010 :=
  { useTruncated := useTruncated
    times := rows.map (fun r => r.1)
    EOP := rows.map (fun r => fun j =>
      if j = 2 then r.2 2 - 86400 * (M.utc2gps r.1 - r.1)
      else if j = 0 ∨ j = 1 ∨ j = 4 ∨ j = 5 then r.2 j * (M.deg2rad / 3600)
      else r.2 j) }

/-- The constructor (earthRotationIers2010.cpp:27-66): after reading the
configuration (whose optional `inputfileEOP` is modelled by `eopFile`,
`none` standing for an empty file name), schema creation returns early with
an unloaded object; otherwise, when built without the ERFA library
(`NOLIB_ERFA`), the constructor itself throws; otherwise a given EOP file
is loaded. -/
def EarthRotationIers2010.construct (M : ExternalModels) (noLibErfa : Bool)
    (isCreateSchema : Bool) (useTruncated : Bool)
    (eopFile : Option (List (ℚ × (Fin 6 → ℚ)))) :
    Except EopError EarthRotationIers2010 :=
  if isCreateSchema then .ok ⟨useTruncated, [], []⟩
  else if noLibErfa then .error .missingDependency
  else
    match eopFile with
    | none => .ok ⟨useTruncated, [], []⟩
    | some rows => .ok (EarthRotationIers2010.load M useTruncated rows)

/-- The eight outputs of `earthOrientationParameter`. -/
structure EopResult where
  xp : ℚ
  yp : ℚ
  sp : ℚ
  deltaUT : ℚ
  LOD : ℚ
  X : ℚ
  Y : ℚ
  S : ℚ
  deriving DecidableEq, Repr

/-- The model section of `earthOrientationParameter`
(earthRotationIers2010.cpp:95-128): ocean-tide diurnal/semidiurnal EOP
variations (`ortho_eop`), libration polar motion (`pmsdnut2`) and UT1/LOD
(`utlibr`) corrections — all scaled from micro-units — on top of the
interpolated contributions, plus `sp` and the precession-nutation
quantities (truncated `eraXys00b` or full `eraXy06` + `eraS06`), with the
interpolated celestial-pole offsets added to X and Y. -/
def applyModels (M : ExternalModels) (useTruncated : Bool) (timeGPS : ℚ)
    (xp yp deltaUT LOD dX dY : ℚ) : EopResult :=
  { xp := xp + M.orthoEop (M.gps2utc timeGPS) 0 * (1 / 1000000) * M.deg2rad / 3600
             + M.pmsdnut2 (M.gps2utc timeGPS) 0 * (1 / 1000000) * M.deg2rad / 3600
    yp := yp + M.orthoEop (M.gps2utc timeGPS) 1 * (1 / 1000000) * M.deg2rad / 3600
             + M.pmsdnut2 (M.gps2utc timeGPS) 1 * (1 / 1000000) * M.deg2rad / 3600
    sp := M.eraSp00 (M.gps2tt timeGPS)
    deltaUT := deltaUT + M.orthoEop (M.gps2utc timeGPS) 2 * (1 / 1000000)
                       + (M.utlibr (M.gps2utc timeGPS)).1 * (1 / 1000000)
    LOD := LOD + (M.utlibr (M.gps2utc timeGPS)).2 * (1 / 1000000)
    X := (if useTruncated then (M.eraXys00b (M.gps2tt timeGPS)).1
          else (M.eraXy06 (M.gps2tt timeGPS)).1) + dX
    Y := (if useTruncated then (M.eraXys00b (M.gps2tt timeGPS)).2.1
          else (M.eraXy06 (M.gps2tt timeGPS)).2) + dY
    S := if useTruncated then (M.eraXys00b (M.gps2tt timeGPS)).2.2
         else M.eraS06 (M.gps2tt timeGPS) (M.eraXy06 (M.gps2tt timeGPS)).1
                (M.eraXy06 (M.gps2tt timeGPS)).2 }

/-- Method `EarthRotationIers2010::earthOrientationParameter`
(earthRotationIers2010.cpp:70-135).  Without the ERFA library every call
throws.  With a non-empty loaded series, the query instant is converted to
UTC and rejected when outside `[times.at(0), times.back()]`; otherwise the
six columns are interpolated at the UTC instant and the GPS−UTC offset at
the query instant is added back onto ΔUT1.  With an empty series the
interpolated contributions are zero.  The model corrections are applied in
both non-error cases. -/
def EarthRotationIers2010.earthOrientationParameter (M : ExternalModels)
    (noLibErfa : Bool) (st : EarthRotationIers2010) (timeGPS : ℚ) :
    Except EopError EopResult :=
  if noLibErfa then .error .missingDependency
  else if st.EOP.length ≠ 0 then
    if M.gps2utc timeGPS < st.times.getD 0 0 ∨
        st.times.getLastD 0 < M.gps2utc timeGPS then
      .error (.outOfRange timeGPS)
    else
      .ok (applyModels M st.useTruncated timeGPS
        (M.interp st.times (st.EOP.map fun r => r 0) (M.gps2utc timeGPS))
        (M.interp st.times (st.EOP.map fun r => r 1) (M.gps2utc timeGPS))
        (M.interp st.times (st.EOP.map fun r => r 2) (M.gps2utc timeGPS)
          + 86400 * (timeGPS - M.gps2utc timeGPS))
        (M.interp st.times (st.EOP.map fun r => r 3) (M.gps2utc timeGPS))
        (M.interp st.times (st.EOP.map fun r => r 4) (M.gps2utc timeGPS))
        (M.interp st.times (st.EOP.map fun r => r 5) (M.gps2utc timeGPS)))
  else .ok (applyModels M st.useTruncated timeGPS 0 0 0 0 0 0)

/-- default row / default column used with `List.getD`. -/
def row0 : ℚ × (Fin 6 → ℚ) := (0, fun _ => 0)

/-- default EOP table entry used with `List.getD`. -/
def col0 : Fin 6 → ℚ := fun _ => 0

theorem load_EOP_apply (M : ExternalModels) (u : Bool)
    (rows : List (ℚ × (Fin 6 → ℚ))) (i : Nat) (hi : i < rows.length) (j : Fin 6) :
    ((EarthRotationIers2010.load M u rows).EOP.getD i col0) j =
      (if j = 2 then (rows.getD i row0).2 2 -
          86400 * (M.utc2gps (rows.getD i row0).1 - (rows.getD i row0).1)
       else if j = 0 ∨ j = 1 ∨ j = 4 ∨ j = 5 then
          (rows.getD i row0).2 j * (M.deg2rad / 3600)
       else (rows.getD i row0).2 j) := by
  have h1 : i < ((EarthRotationIers2010.load M u rows).EOP).length := by
    simpa [EarthRotationIers2010.load] using hi
  rw [List.getD_eq_getElem _ _ h1, List.getD_eq_getElem _ _ hi]
  simp only [EarthRotationIers2010.load, List.getElem_map]

theorem load_EOP_mapcol_getD (M : ExternalModels) (u : Bool)
    (rows : List (ℚ × (Fin 6 → ℚ))) (j : Nat) (hj : j < rows.length) (c : Fin 6) :
    (((EarthRotationIers2010.load M u rows).EOP.map fun r => r c).getD j 0) =
      ((EarthRotationIers2010.load M u rows).EOP.getD j col0) c := by
  have h1 : j < (((EarthRotationIers2010.load M u rows).EOP.map fun r => r c)).length := by
    simpa [EarthRotationIers2010.load] using hj
  have h2 : j < ((EarthRotationIers2010.load M u rows).EOP).length := by
    simpa [EarthRotationIers2010.load] using hj
  rw [List.getD_eq_getElem _ _ h1, List.getD_eq_getElem _ _ h2, List.getElem_map]

theorem getD_map_fst (rows : List (ℚ × (Fin 6 → ℚ))) (j : Nat)
    (hj : j < rows.length) :
    (rows.map fun r => r.1).getD j 0 = (rows.getD j row0).1 := by
  rw [List.getD_eq_getElem _ _ (by simpa using hj), List.getD_eq_getElem _ _ hj,
    List.getElem_map]

/-- A trivial instantiation of the external collaborators (identity time
scales, all-zero correction models, interpolation by the first support
value), used to evaluate the embedding on concrete inputs. -/
def zeroModels : ExternalModels :=
  { gps2utc := fun t => t
    utc2gps := fun t => t
    gps2tt := fun t => t
    orthoEop := fun _ _ => 0
    pmsdnut2 := fun _ _ => 0
    utlibr := fun _ => (0, 0)
    eraSp00 := fun _ => 0
    eraXys00b := fun _ => (0, 0, 0)
    eraXy06 := fun _ => (0, 0)
    eraS06 := fun _ _ _ => 0
    interp := fun _ vs _ => vs.getD 0 0
    deg2rad := 1 }

/-- A one-row EOP table used for concrete evaluation. -/
def sampleRows : List (ℚ × (Fin 6 → ℚ)) := [(0, fun _ => 0)]

theorem eop_ok_of_inRange (M : ExternalModels) (st : EarthRotationIers2010)
    (timeGPS : ℚ) (hne : st.EOP.length ≠ 0)
    (hin : ¬(M.gps2utc timeGPS < st.times.getD 0 0 ∨
      st.times.getLastD 0 < M.gps2utc timeGPS)) :
    st.earthOrientationParameter M false timeGPS =
      .ok (applyModels M st.useTruncated timeGPS
        (M.interp st.times (st.EOP.map fun r => r 0) (M.gps2utc timeGPS))
        (M.interp st.times (st.EOP.map fun r => r 1) (M.gps2utc timeGPS))
        (M.interp st.times (st.EOP.map fun r => r 2) (M.gps2utc timeGPS)
          + 86400 * (timeGPS - M.gps2utc timeGPS))
        (M.interp st.times (st.EOP.map fun r => r 3) (M.gps2utc timeGPS))
        (M.interp st.times (st.EOP.map fun r => r 4) (M.gps2utc timeGPS))
        (M.interp st.times (st.EOP.map fun r => r 5) (M.gps2utc timeGPS))) := by
  unfold EarthRotationIers2010.earthOrientationParameter
  rw [if_neg (by simp), if_pos hne, if_neg hin]

theorem eop_error_of_outOfRange (M : ExternalModels) (st : EarthRotationIers2010)
    (timeGPS : ℚ) (hne : st.EOP.length ≠ 0)
    (hout : M.gps2utc timeGPS < st.times.getD 0 0 ∨
      st.times.getLastD 0 < M.gps2utc timeGPS) :
    st.earthOrientationParameter M false timeGPS = .error (.outOfRange timeGPS) := by
  unfold EarthRotationIers2010.earthOrientationParameter
  rw [if_neg (by simp), if_pos hne, if_pos hout]

/-- C1: with a non-empty loaded EOP series (and the ERFA library present),
a query fails with the out-of-range error exactly when its UTC conversion
lies strictly outside the closed interval from the first to the last sample
time; inside the interval the call returns a result. -/
theorem earthOrientation_outOfRange_iff (M : ExternalModels)
    (useTruncated : Bool) (rows : List (ℚ × (Fin 6 → ℚ))) (hne : rows ≠ [])
    (timeGPS : ℚ) :
    ((EarthRotationIers2010.load M useTruncated rows).earthOrientationParameter
        M false timeGPS = .error (.outOfRange timeGPS) ↔
      (M.gps2utc timeGPS < (rows.map fun r => r.1).getD 0 0 ∨
        (rows.map fun r => r.1).getLastD 0 < M.gps2utc timeGPS)) ∧
    (¬(M.gps2utc timeGPS < (rows.map fun r => r.1).getD 0 0 ∨
        (rows.map fun r => r.1).getLastD 0 < M.gps2utc timeGPS) →
      ∃ res, (EarthRotationIers2010.load M useTruncated rows).earthOrientationParameter
        M false timeGPS = .ok res) := by
  have hne' : (EarthRotationIers2010.load M useTruncated rows).EOP.length ≠ 0 := by
    simpa [EarthRotationIers2010.load] using hne
  have htimes : (EarthRotationIers2010.load M useTruncated rows).times =
    rows.map fun r => r.1 := rfl
  refine ⟨⟨fun h => ?_, fun hout => ?_⟩, fun hin => ?_⟩
  · by_contra hout
    rw [eop_ok_of_inRange M _ timeGPS hne' (by rwa [htimes])] at h
    exact Except.noConfusion h
  · exact eop_error_of_outOfRange M _ timeGPS hne' (by rwa [htimes])
  · exact ⟨_, eop_ok_of_inRange M _ timeGPS hne' (by rwa [htimes])⟩

/-- Witness for `earthOrientation_outOfRange_iff` at concrete inputs. -/
theorem earthOrientation_outOfRange_iff_witness :
    ((EarthRotationIers2010.load zeroModels false
        sampleRows).earthOrientationParameter zeroModels false 1 =
      .error (.outOfRange 1) ↔
      (zeroModels.gps2utc 1 < (sampleRows.map fun r => r.1).getD 0 0 ∨
        (sampleRows.map fun r => r.1).getLastD 0 < zeroModels.gps2utc 1)) ∧
    (¬(zeroModels.gps2utc 1 < (sampleRows.map fun r => r.1).getD 0 0 ∨
        (sampleRows.map fun r => r.1).getLastD 0 < zeroModels.gps2utc 1) →
      ∃ res, (EarthRotationIers2010.load zeroModels false
        sampleRows).earthOrientationParameter zeroModels false 1 = .ok res) :=
  earthOrientation_outOfRange_iff zeroModels false sampleRows (by simp [sampleRows]) 1

/-- C9: an interpolator holding an empty series (constructed with no EOP
file) never raises the out-of-range error: for every query time the call
succeeds, the six interpolated contributions are zero (no ΔUT1 offset
add-back either), and the outputs are exactly the short-period correction
models, `sp`, and the precession-nutation quantities with zero dX/dY. -/
theorem earthOrientation_empty_series (M : ExternalModels)
    (useTruncated : Bool) (timeGPS : ℚ) :
    EarthRotationIers2010.construct M false false useTruncated none =
      .ok ⟨useTruncated, [], []⟩ ∧
    EarthRotationIers2010.earthOrientationParameter M false
        ⟨useTruncated, [], []⟩ timeGPS =
      .ok (applyModels M useTruncated timeGPS 0 0 0 0 0 0) := by
  refine ⟨rfl, ?_⟩
  unfold EarthRotationIers2010.earthOrientationParameter
  rw [if_neg (by simp), if_neg (by simp)]

/-- Counterexample to C5 as stated: with the ERFA library unavailable and
schema creation off, constructing the interpolator *with no EOP file given*
already fails with the missing-dependency error (earthRotationIers2010.cpp:
36-38 throws from the constructor), instead of succeeding as claimed. -/
theorem construct_without_erfa_errors :
    EarthRotationIers2010.construct zeroModels true false false none =
      .error .missingDependency := rfl

/-- C5 (amended): when the precession-nutation library is unavailable at
build time, the missing-dependency error is raised from the constructor
itself (unless in schema-creation mode, which returns an unloaded object
before the check) and from every call to `earthOrientationParameter`;
with the library available, construction with no EOP file succeeds. -/
theorem missingDependency_paths (M : ExternalModels)
    (useTruncated schema : Bool) (eopFile : Option (List (ℚ × (Fin 6 → ℚ))))
    (st : EarthRotationIers2010) (timeGPS : ℚ) :
    (schema = false →
      EarthRotationIers2010.construct M true schema useTruncated eopFile =
        .error .missingDependency) ∧
    (schema = true →
      EarthRotationIers2010.construct M true schema useTruncated eopFile =
        .ok ⟨useTruncated, [], []⟩) ∧
    (st.earthOrientationParameter M true timeGPS = .error .missingDependency) ∧
    (EarthRotationIers2010.construct M false schema useTruncated none =
      .ok ⟨useTruncated, [], []⟩) := by
  refine ⟨fun h => ?_, fun h => ?_, rfl, ?_⟩
  · subst h
    cases eopFile <;> rfl
  · subst h
    rfl
  · cases schema <;> rfl

/-- Witness for `missingDependency_paths` at concrete inputs. -/
theorem missingDependency_paths_witness :
    EarthRotationIers2010.construct zeroModels true false true none =
        .error .missingDependency ∧
    EarthRotationIers2010.construct zeroModels true true true none =
        .ok ⟨true, [], []⟩ :=
  ⟨(missingDependency_paths zeroModels true false none ⟨true, [], []⟩ 0).1 rfl,
   (missingDependency_paths zeroModels true true none ⟨true, [], []⟩ 0).2.1 rfl⟩

/-- C4: ΔUT1 bookkeeping across leap seconds.  (a) At load time the stored
ΔUT1 column is UT1-GPS: the UTC→GPS offset at each sample time has been
subtracted.  (b) Consequently a jump common to the raw UT1-UTC column and
the UTC→GPS offset (a leap second) cancels out of the stored series, which
is what the interpolator sees.  (c) At query time the offset at the query
instant is added back: querying at sample `j` (with a node-exact
interpolator, spec §3) returns exactly the raw UT1-UTC value of row `j`
plus the short-period model corrections. -/
theorem deltaUT_offset_bookkeeping (M : ExternalModels) (useTruncated : Bool)
    (rows : List (ℚ × (Fin 6 → ℚ))) (j : Nat) (hj : j < rows.length)
    (timeGPS : ℚ)
    (hutc : M.gps2utc timeGPS = (rows.map fun r => r.1).getD j 0)
    (hgps : timeGPS = M.utc2gps ((rows.map fun r => r.1).getD j 0))
    (hin : ¬(M.gps2utc timeGPS < (rows.map fun r => r.1).getD 0 0 ∨
        (rows.map fun r => r.1).getLastD 0 < M.gps2utc timeGPS))
    (hexact : M.interp (rows.map fun r => r.1)
        ((EarthRotationIers2010.load M useTruncated rows).EOP.map fun r => r 2)
        (M.gps2utc timeGPS) =
      (((EarthRotationIers2010.load M useTruncated rows).EOP.map fun r => r 2).getD j 0)) :
    (∀ i, i < rows.length →
      ((EarthRotationIers2010.load M useTruncated rows).EOP.getD i col0) 2 =
        (rows.getD i row0).2 2 -
          86400 * (M.utc2gps (rows.getD i row0).1 - (rows.getD i row0).1)) ∧
    (∀ i, i + 1 < rows.length →
      ((EarthRotationIers2010.load M useTruncated rows).EOP.getD (i + 1) col0) 2 -
        ((EarthRotationIers2010.load M useTruncated rows).EOP.getD i col0) 2 =
      ((rows.getD (i + 1) row0).2 2 - (rows.getD i row0).2 2) -
        (86400 * (M.utc2gps (rows.getD (i + 1) row0).1 - (rows.getD (i + 1) row0).1) -
         86400 * (M.utc2gps (rows.getD i row0).1 - (rows.getD i row0).1))) ∧
    (∃ res, (EarthRotationIers2010.load M useTruncated rows).earthOrientationParameter
        M false timeGPS = .ok res ∧
      res.deltaUT = (rows.getD j row0).2 2 +
        M.orthoEop (M.gps2utc timeGPS) 2 * (1 / 1000000) +
        (M.utlibr (M.gps2utc timeGPS)).1 * (1 / 1000000)) := by
  have hstore : ∀ i, i < rows.length →
      ((EarthRotationIers2010.load M useTruncated rows).EOP.getD i col0) 2 =
        (rows.getD i row0).2 2 -
          86400 * (M.utc2gps (rows.getD i row0).1 - (rows.getD i row0).1) := by
    intro i hi
    rw [load_EOP_apply M useTruncated rows i hi 2]
    simp
  refine ⟨hstore, ?_, ?_⟩
  · intro i hi
    rw [hstore (i + 1) hi, hstore i (by omega)]
    ring
  · have hne' : (EarthRotationIers2010.load M useTruncated rows).EOP.length ≠ 0 := by
      simp only [EarthRotationIers2010.load, List.length_map]
      omega
    have htimes : (EarthRotationIers2010.load M useTruncated rows).times =
      rows.map fun r => r.1 := rfl
    rw [eop_ok_of_inRange M _ timeGPS hne' (by rwa [htimes])]
    refine ⟨_, rfl, ?_⟩
    show M.interp _ _ _ + 86400 * (timeGPS - M.gps2utc timeGPS) +
        M.orthoEop (M.gps2utc timeGPS) 2 * (1 / 1000000) +
        (M.utlibr (M.gps2utc timeGPS)).1 * (1 / 1000000) = _
    rw [htimes, hexact, load_EOP_mapcol_getD M useTruncated rows j hj 2,
      hstore j hj]
    rw [hutc, hgps, getD_map_fst rows j hj]
    ring

/-- Witness for `deltaUT_offset_bookkeeping` at concrete inputs. -/
theorem deltaUT_offset_bookkeeping_witness :
    ∃ res, (EarthRotationIers2010.load zeroModels false
        sampleRows).earthOrientationParameter zeroModels false 0 = .ok res ∧
      res.deltaUT = (sampleRows.getD 0 row0).2 2 +
        zeroModels.orthoEop (zeroModels.gps2utc 0) 2 * (1 / 1000000) +
        (zeroModels.utlibr (zeroModels.gps2utc 0)).1 * (1 / 1000000) :=
  (deltaUT_offset_bookkeeping zeroModels false sampleRows 0 (by decide) 0
    rfl rfl (by decide) rfl).2.2

/-- C7: unit conversion.  At load time the pole coordinates (columns 0, 1)
and celestial pole offsets (columns 4, 5) are scaled by exactly
`DEG2RAD/3600` (arc-seconds to radians) while ΔUT1 (column 2, apart from
the leap-second offset shift) and LOD (column 3) keep seconds; with a
value-linear interpolator, an in-range query therefore returns the
interpolated raw arc-second values times `DEG2RAD/3600` (plus the model
corrections) for xp, yp, dX, dY, and plain interpolated seconds for LOD. -/
theorem eop_unit_conversion (M : ExternalModels) (useTruncated : Bool)
    (rows : List (ℚ × (Fin 6 → ℚ))) (hne : rows ≠ []) (timeGPS : ℚ)
    (hin : ¬(M.gps2utc timeGPS < (rows.map fun r => r.1).getD 0 0 ∨
        (rows.map fun r => r.1).getLastD 0 < M.gps2utc timeGPS))
    (hlinear : ∀ (c : ℚ) (ts vs : List ℚ) (t : ℚ),
        M.interp ts (vs.map fun v => v * c) t = M.interp ts vs t * c) :
    (∀ i, i < rows.length →
      ((EarthRotationIers2010.load M useTruncated rows).EOP.getD i col0) 0 =
          (rows.getD i row0).2 0 * (M.deg2rad / 3600) ∧
      ((EarthRotationIers2010.load M useTruncated rows).EOP.getD i col0) 1 =
          (rows.getD i row0).2 1 * (M.deg2rad / 3600) ∧
      ((EarthRotationIers2010.load M useTruncated rows).EOP.getD i col0) 4 =
          (rows.getD i row0).2 4 * (M.deg2rad / 3600) ∧
      ((EarthRotationIers2010.load M useTruncated rows).EOP.getD i col0) 5 =
          (rows.getD i row0).2 5 * (M.deg2rad / 3600) ∧
      ((EarthRotationIers2010.load M useTruncated rows).EOP.getD i col0) 3 =
          (rows.getD i row0).2 3 ∧
      ((EarthRotationIers2010.load M useTruncated rows).EOP.getD i col0) 2 =
          (rows.getD i row0).2 2 -
            86400 * (M.utc2gps (rows.getD i row0).1 - (rows.getD i row0).1)) ∧
    (∃ res, (EarthRotationIers2010.load M useTruncated rows).earthOrientationParameter
        M false timeGPS = .ok res ∧
      res.xp = M.interp (rows.map fun r => r.1) (rows.map fun r => r.2 0)
            (M.gps2utc timeGPS) * (M.deg2rad / 3600)
          + M.orthoEop (M.gps2utc timeGPS) 0 * (1 / 1000000) * M.deg2rad / 3600
          + M.pmsdnut2 (M.gps2utc timeGPS) 0 * (1 / 1000000) * M.deg2rad / 3600 ∧
      res.yp = M.interp (rows.map fun r => r.1) (rows.map fun r => r.2 1)
            (M.gps2utc timeGPS) * (M.deg2rad / 3600)
          + M.orthoEop (M.gps2utc timeGPS) 1 * (1 / 1000000) * M.deg2rad / 3600
          + M.pmsdnut2 (M.gps2utc timeGPS) 1 * (1 / 1000000) * M.deg2rad / 3600 ∧
      res.LOD = M.interp (rows.map fun r => r.1) (rows.map fun r => r.2 3)
            (M.gps2utc timeGPS)
          + (M.utlibr (M.gps2utc timeGPS)).2 * (1 / 1000000) ∧
      res.X = (if useTruncated then (M.eraXys00b (M.gps2tt timeGPS)).1
            else (M.eraXy06 (M.gps2tt timeGPS)).1)
          + M.interp (rows.map fun r => r.1) (rows.map fun r => r.2 4)
              (M.gps2utc timeGPS) * (M.deg2rad / 3600) ∧
      res.Y = (if useTruncated then (M.eraXys00b (M.gps2tt timeGPS)).2.1
            else (M.eraXy06 (M.gps2tt timeGPS)).2)
          + M.interp (rows.map fun r => r.1) (rows.map fun r => r.2 5)
              (M.gps2utc timeGPS) * (M.deg2rad / 3600)) := by
  constructor
  · intro i hi
    refine ⟨?_, ?_, ?_, ?_, ?_, ?_⟩ <;> rw [load_EOP_apply M useTruncated rows i hi] <;> simp
  · have hne' : (EarthRotationIers2010.load M useTruncated rows).EOP.length ≠ 0 := by
      simpa [EarthRotationIers2010.load] using hne
    have htimes : (EarthRotationIers2010.load M useTruncated rows).times =
      rows.map fun r => r.1 := rfl
    have hcol : ∀ c : Fin 6, c = 0 ∨ c = 1 ∨ c = 4 ∨ c = 5 →
        ((EarthRotationIers2010.load M useTruncated rows).EOP.map fun r => r c) =
          (rows.map fun r => r.2 c).map (fun v => v * (M.deg2rad / 3600)) := by
      intro c hc
      simp only [EarthRotationIers2010.load, List.map_map]
      refine List.map_congr_left (fun r _ => ?_)
      rcases hc with h | h | h | h <;> subst h <;> rfl
    have hcol3 : ((EarthRotationIers2010.load M useTruncated rows).EOP.map
        fun r => r 3) = rows.map fun r => r.2 3 := by
      simp only [EarthRotationIers2010.load, List.map_map]
      exact List.map_congr_left (fun r _ => rfl)
    rw [eop_ok_of_inRange M _ timeGPS hne' (by rwa [htimes])]
    refine ⟨_, rfl, ?_, ?_, ?_, ?_, ?_⟩
    · show M.interp _ _ _ + _ + _ = _
      rw [htimes, hcol 0 (by simp), hlinear]
    · show M.interp _ _ _ + _ + _ = _
      rw [htimes, hcol 1 (by simp), hlinear]
    · show M.interp _ _ _ + _ = _
      rw [htimes, hcol3]
    · show _ + M.interp _ _ _ = _
      rw [htimes, hcol 4 (by simp), hlinear]
      rfl
    · show _ + M.interp _ _ _ = _
      rw [htimes, hcol 5 (by simp), hlinear]
      rfl

/-- Witness for `eop_unit_conversion` at concrete inputs. -/
theorem eop_unit_conversion_witness :
    ∃ res, (EarthRotationIers2010.load zeroModels false
        sampleRows).earthOrientationParameter zeroModels false 0 = .ok res ∧
      res.xp = zeroModels.interp (sampleRows.map fun r => r.1)
            (sampleRows.map fun r => r.2 0) (zeroModels.gps2utc 0) *
            (zeroModels.deg2rad / 3600)
          + zeroModels.orthoEop (zeroModels.gps2utc 0) 0 * (1 / 1000000) *
              zeroModels.deg2rad / 3600
          + zeroModels.pmsdnut2 (zeroModels.gps2utc 0) 0 * (1 / 1000000) *
              zeroModels.deg2rad / 3600 ∧
      res.yp = zeroModels.interp (sampleRows.map fun r => r.1)
            (sampleRows.map fun r => r.2 1) (zeroModels.gps2utc 0) *
            (zeroModels.deg2rad / 3600)
          + zeroModels.orthoEop (zeroModels.gps2utc 0) 1 * (1 / 1000000) *
              zeroModels.deg2rad / 3600
          + zeroModels.pmsdnut2 (zeroModels.gps2utc 0) 1 * (1 / 1000000) *
              zeroModels.deg2rad / 3600 ∧
      res.LOD = zeroModels.interp (sampleRows.map fun r => r.1)
            (sampleRows.map fun r => r.2 3) (zeroModels.gps2utc 0)
          + (zeroModels.utlibr (zeroModels.gps2utc 0)).2 * (1 / 1000000) ∧
      res.X = (if false then (zeroModels.eraXys00b (zeroModels.gps2tt 0)).1
            else (zeroModels.eraXy06 (zeroModels.gps2tt 0)).1)
          + zeroModels.interp (sampleRows.map fun r => r.1)
              (sampleRows.map fun r => r.2 4) (zeroModels.gps2utc 0) *
              (zeroModels.deg2rad / 3600) ∧
      res.Y = (if false then (zeroModels.eraXys00b (zeroModels.gps2tt 0)).2.1
            else (zeroModels.eraXy06 (zeroModels.gps2tt 0)).2)
          + zeroModels.interp (sampleRows.map fun r => r.1)
              (sampleRows.map fun r => r.2 5) (zeroModels.gps2utc 0) *
              (zeroModels.deg2rad / 3600) :=
  (eop_unit_conversion zeroModels false sampleRows (by simp [sampleRows]) 0
    (by decide) (fun c ts vs t => by cases vs <;> simp [zeroModels])).2

end Groops
